import Mathlib

/-!
Verification of the Trip Daddy planning workflow orchestrator.

The definitions below are a shallow embedding of the TypeScript source:
the client orchestrator in src/App.tsx and the server endpoints in
src/server/index.ts.  JavaScript objects whose keys are strings or day
numbers are modelled as association lists in insertion order (matching
object spread update semantics), JS Set is modelled as a duplicate-free
list in insertion order, and numbers that the code compares with < are
modelled as Int.  Asynchronous service calls are modelled by passing the
outcome of the call as an explicit parameter.
-/

namespace TripDaddy

/-! ## Data model (src/App.tsx types, §3 of the design) -/

/-- Activity record as produced by the generation service.  The
orchestrator never inspects the numeric value of rating, so all
info fields are kept as strings. -/
structure Activity where
  name : String
  description : String
  emoji : String
  category : String
  mapsQuery : String
  website : Option String := none
  priceLevel : Option String := none
  admissionFee : Option String := none
  rating : Option String := none
  openingHours : Option String := none
  isLocalRecommendation : Bool := false
deriving DecidableEq

/-- Period of a day, the second component of a slot key. -/
inductive Period
  | morning
  | afternoon
  | evening
deriving DecidableEq

structure HighlightEvent where
  name : String
  description : String
  mapsQuery : String
deriving DecidableEq

structure DayPlan where
  dayNumber : Nat
  date : String
  title : String
  areaFocus : String
  vibe : String
  vibeIcons : List String
  highlightEvent : Option HighlightEvent := none
  morning : List Activity
  afternoon : List Activity
  evening : List Activity
deriving DecidableEq

/-- Read the activity list of a given period, mirroring d[period]. -/
def DayPlan.periodList (d : DayPlan) : Period → List Activity
  | Period.morning => d.morning
  | Period.afternoon => d.afternoon
  | Period.evening => d.evening

/-- Functional update of one period list, mirroring
\x7b ...d, [period]: newActivities \x7d. -/
def DayPlan.setPeriodList (d : DayPlan) (p : Period) (l : List Activity) : DayPlan :=
  match p with
  | Period.morning => { d with morning := l }
  | Period.afternoon => { d with afternoon := l }
  | Period.evening => { d with evening := l }

structure Itinerary where
  destination : String
  days : List DayPlan
deriving DecidableEq

/-! ## Server (src/server/index.ts) -/

/-- Persisted Itinerary document (src/server/models/Itinerary schema).
The images map is an association list dayNumber to base64 string. -/
structure StoredItinerary where
  id : String
  email : Option String := none
  unlocked : Bool
  plan : Itinerary
  images : List (Nat × String)
deriving DecidableEq

/-- maskPlan helper: truncate the plan to its first two days. -/
def maskPlan (plan : Itinerary) : Itinerary :=
  { plan with days := plan.days.take 2 }

/-- Response shape of GET /api/itinerary/:id and POST /api/generate-trip. -/
structure SessionResponse where
  id : String
  unlocked : Bool
  plan : Itinerary
  totalDays : Nat
  images : List (Nat × String)
deriving DecidableEq

/-- GET /api/itinerary/:id on a stored document: when the document is not
unlocked, the returned plan is masked to its first two days, while
totalDays always reports the full stored day count. -/
def getItineraryEndpoint (it : StoredItinerary) : SessionResponse :=
  { id := it.id
    unlocked := it.unlocked
    plan := if it.unlocked then it.plan else maskPlan it.plan
    totalDays := it.plan.days.length
    images := it.images }

/-- Checkout session as retrieved from the payment provider. -/
structure CheckoutSession where
  payment_status : String
  client_reference_id : Option String
deriving DecidableEq

/-- Response outcome of POST /api/verify-payment: success (200 with
success true), invalid (400, payment invalid or not completed), or
error (500, the session retrieval threw). -/
inductive VerifyResponse
  | success
  | invalid
  | error
deriving DecidableEq

/-- findOneAndUpdate with an unlocked update: sets unlocked on the first
document matching the id, leaving every other document unchanged. -/
def unlockFirst : List StoredItinerary → String → List StoredItinerary
  | [], _ => []
  | it :: rest, iid =>
    if it.id = iid then { it with unlocked := true } :: rest
    else it :: unlockFirst rest iid

/-- POST /api/verify-payment.  The retrieval of the checkout session is
passed as an explicit parameter: none models a thrown retrieval error
(caught and answered with status 500).  The database unlock update runs
only when the session is paid and its client reference id equals the
requested itinerary id. -/
def verifyPaymentEndpoint (db : List StoredItinerary)
    (retrieved : Option CheckoutSession) (itineraryId : String) :
    VerifyResponse × List StoredItinerary :=
  match retrieved with
  | none => (VerifyResponse.error, db)
  | some s =>
    if s.payment_status = "paid" ∧ s.client_reference_id = some itineraryId then
      (VerifyResponse.success, unlockFirst db itineraryId)
    else
      (VerifyResponse.invalid, db)

/-! ## Client paywall display (ITINERARY render, src/App.tsx) -/

/-- displayDays: when locked, show at most the first two days. -/
def displayDays (isUnlocked : Bool) (days : List DayPlan) : List DayPlan :=
  if isUnlocked then days else days.take 2

/-- lockedDaysCount = totalDays - displayDays.length. -/
def lockedDaysCount (totalDays : Nat) (displayedDays : Nat) : Int :=
  (totalDays : Int) - (displayedDays : Int)

/-- The locked-state overlay (unlock affordance) renders exactly when
the session is locked and lockedDaysCount is positive. -/
def showUnlockAffordance (isUnlocked : Bool) (locked : Int) : Bool :=
  !isUnlocked && locked > 0

/-! ## Preferences (src/App.tsx handlePreferencesSubmit) -/

inductive TripType
  | Solo
  | Couple
  | Friends
  | Family
deriving DecidableEq

/-- Demographics variant.  In the source these are optional string
fields on an object; the empty string models both the JS undefined and
the empty input value, which are the exactly the falsy cases the guard
tests for. -/
structure Demographics where
  gender : String := ""
  age : String := ""
  kidsAgeRange : String := ""
deriving DecidableEq

/-- Fixed plan entry of the preference draft. -/
structure FixedPlan where
  id : String
  date : String
  description : String
deriving DecidableEq

/-- Client preference draft (the prefs state of App). -/
structure UserPreferences where
  destination : String
  startDate : String
  endDate : String
  hotelLocation : String
  tripType : TripType
  budget : String
  vibe : String
  pace : String
  interests : List String
  demographics : Demographics
  fixedPlans : List FixedPlan
  mustVisit : String
  followUpAnswers : List (String × Bool)
deriving DecidableEq

/-- The initial preference draft created at session start
(useState initializer in App). -/
def initialPrefs : UserPreferences :=
  { destination := ""
    startDate := ""
    endDate := ""
    hotelLocation := ""
    tripType := TripType.Couple
    budget := "Medium"
    vibe := "Both"
    pace := "Balanced"
    interests := []
    demographics := {}
    fixedPlans := []
    mustVisit := ""
    followUpAnswers := [] }

/-- Wizard step enum (Step in src/App.tsx). -/
inductive Step
  | START
  | PREFERENCES
  | SPECIFICS
  | QUESTIONS
  | LOADING
  | ITINERARY
  | VERIFYING_PAYMENT
deriving DecidableEq

/-- handlePreferencesSubmit: returns the next step together with the
alert message shown when the transition is blocked. -/
def handlePreferencesSubmit (t : TripType) (d : Demographics) :
    Step × Option String :=
  if t = TripType.Solo ∧ (d.gender = "" ∨ d.age = "") then
    (Step.PREFERENCES, some "Please select your gender and enter your age.")
  else if (t = TripType.Couple ∨ t = TripType.Friends) ∧ d.age = "" then
    (Step.PREFERENCES, some "Please enter the average age of your group.")
  else if t = TripType.Family ∧ d.kidsAgeRange = "" then
    (Step.PREFERENCES, some "Please select the age range of the children.")
  else
    (Step.SPECIFICS, none)

/-- Completeness table of §3: the type-specific demographic fields that
the Preferences step requires. -/
def demographicsComplete (t : TripType) (d : Demographics) : Prop :=
  match t with
  | TripType.Solo => d.gender ≠ "" ∧ d.age ≠ ""
  | TripType.Couple => d.age ≠ ""
  | TripType.Friends => d.age ≠ ""
  | TripType.Family => d.kidsAgeRange ≠ ""

/-! ## Swipe interpreter (src/App.tsx, SWIPE LOGIC) -/

structure SmartQuestion where
  id : String
  emoji : String
  title : String
  description : String
deriving DecidableEq

/-- Object-spread update of the follow-up answers map:
\x7b ...prev, [id]: answer \x7d keeps the position of an existing key,
overwrites its value, and appends a fresh key at the end. -/
def setAnswer (m : List (String × Bool)) (qid : String) (b : Bool) :
    List (String × Bool) :=
  if m.any (fun p => p.1 == qid) then
    m.map (fun p => if p.1 == qid then (qid, b) else p)
  else
    m ++ [(qid, b)]

/-- Lookup in the follow-up answers map. -/
def getAnswer (m : List (String × Bool)) (qid : String) : Option Bool :=
  (m.find? (fun p => p.1 == qid)).map (fun p => p.2)

/-- State of the Questions step relevant to the swipe interpreter. -/
structure QuestionsState where
  smartQuestions : List SmartQuestion
  currentQuestionIndex : Nat
  dragStart : Option (Int × Int)
  dragDelta : Int × Int
  isAnimatingOut : Bool
  followUpAnswers : List (String × Bool)
  step : Step
deriving DecidableEq

/-- The fixed drag threshold of onPointerUp. -/
def threshold : Int := 100

/-- handleSwipeComplete, including the body of its timeout: commits the
answer for the active question, resets the delta and animation lock,
and either advances the index or signals completion by moving to
LOADING (handleQuestionsComplete).  direction true is a right swipe. -/
def handleSwipeComplete (st : QuestionsState) (direction : Bool) :
    QuestionsState :=
  if st.isAnimatingOut then st
  else
    match st.smartQuestions[st.currentQuestionIndex]? with
    | none => st
    | some q =>
      let answers := setAnswer st.followUpAnswers q.id direction
      let nextIndex := st.currentQuestionIndex + 1
      if st.smartQuestions.length ≤ nextIndex then
        { st with
            followUpAnswers := answers
            dragDelta := (0, 0)
            isAnimatingOut := false
            step := Step.LOADING }
      else
        { st with
            followUpAnswers := answers
            dragDelta := (0, 0)
            isAnimatingOut := false
            currentQuestionIndex := nextIndex }

/-- onPointerUp: classify the accumulated horizontal delta against the
threshold; beyond the threshold in either direction commits an answer,
otherwise the delta resets to zero with no state change. -/
def onPointerUp (st : QuestionsState) : QuestionsState :=
  if st.dragStart.isNone ∨ st.isAnimatingOut then st
  else
    let st1 :=
      if st.dragDelta.1 > threshold then handleSwipeComplete st true
      else if st.dragDelta.1 < -threshold then handleSwipeComplete st false
      else { st with dragDelta := (0, 0) }
    { st1 with dragStart := none }

/-- Run the Questions step on a list of decisions, one per remaining
question, via the gesture-free equivalent (the button handlers call
handleSwipeComplete directly). -/
def runQuestions (st : QuestionsState) (ds : List Bool) : QuestionsState :=
  ds.foldl handleSwipeComplete st

/-! ## Image cache merge (src/App.tsx loadImages) -/

/-- Client image cache, dayNumber to image. -/
def ImageCache := Nat → Option String

/-- Single-day merge performed by each hydration task:
setDayImages (prev to \x7b ...prev, [day.dayNumber]: img \x7d). -/
def mergeImage (k : Nat) (v : String) (c : ImageCache) : ImageCache :=
  fun n => if n = k then some v else c n

/-- Apply a sequence of single-day merges, in completion order. -/
def mergeAll (ps : List (Nat × String)) (c : ImageCache) : ImageCache :=
  ps.foldl (fun acc p => mergeImage p.1 p.2 acc) c

/-! ## Slot regeneration and deletion (src/App.tsx) -/

/-- Slot key string used for the regeneratingIds set:
dayNumber-period-index. -/
def periodName : Period → String
  | Period.morning => "morning"
  | Period.afternoon => "afternoon"
  | Period.evening => "evening"

def slotKey (dayNum : Nat) (p : Period) (idx : Nat) : String :=
  toString dayNum ++ "-" ++ periodName p ++ "-" ++ toString idx

/-- JS Set.add: a no-op if the key is already present, otherwise append
in insertion order. -/
def insertKey (k : String) (l : List String) : List String :=
  if l.contains k then l else l ++ [k]

/-- JS Set.delete: remove the key. -/
def removeKey (k : String) (l : List String) : List String :=
  l.filter (fun x => x != k)

/-- Target of the open regeneration modal (regenTarget state). -/
structure RegenTarget where
  dayNum : Nat
  period : Period
  idx : Nat
  activity : Activity
  dayTitle : String
  areaFocus : String
deriving DecidableEq

/-- Client state touched by the regeneration and deletion controller. -/
structure RegenControllerState where
  itinerary : Option Itinerary
  regeneratingIds : List String
  regenTarget : Option RegenTarget
  regenModalOpen : Bool
deriving DecidableEq

/-- Outcome of the awaited getAlternativeActivity call: a new activity,
a null result, or a thrown error (caught by the catch block). -/
inductive ServiceOutcome
  | success (a : Activity)
  | nullResult
  | thrown
deriving DecidableEq

/-- The exclusion list gathered before the service call: every activity
name currently present across the entire itinerary. -/
def gatherExistingNames (itin : Option Itinerary) : List String :=
  match itin with
  | none => []
  | some it =>
    it.days.foldl
      (fun acc d =>
        acc ++ d.morning.map (fun a => a.name)
          ++ d.afternoon.map (fun a => a.name)
          ++ d.evening.map (fun a => a.name))
      []

/-- The setItinerary updater run on a successful regeneration: replace
the activity at the addressed slot if the day still exists and the
index is in range, mirroring newActivities[idx] truthiness. -/
def replaceInDays (days : List DayPlan) (dayNum : Nat) (p : Period)
    (idx : Nat) (newAct : Activity) : List DayPlan :=
  days.map (fun d =>
    if d.dayNumber = dayNum then
      d.setPeriodList p ((d.periodList p).set idx newAct)
    else d)

/-- Apply the successful regeneration write to the optional itinerary. -/
def applyRegenSuccess (itin : Option Itinerary) (dayNum : Nat) (p : Period)
    (idx : Nat) (newAct : Activity) : Option Itinerary :=
  match itin with
  | none => none
  | some it => some { it with days := replaceInDays it.days dayNum p idx newAct }

/-- confirmRegeneration, run to completion for a given service outcome.
Returns the final state together with the exclusion list passed to the
alternative-activity capability, or none when no service call was made
(which in the source happens only when regenTarget is null).  The key
is added to regeneratingIds before the call and removed in the finally
block on every outcome path. -/
def confirmRegeneration (st : RegenControllerState)
    (outcome : ServiceOutcome) :
    RegenControllerState × Option (List String) :=
  match st.regenTarget with
  | none => (st, none)
  | some t =>
    let key := slotKey t.dayNum t.period t.idx
    let idsDuring := insertKey key st.regeneratingIds
    let names := gatherExistingNames st.itinerary
    let itinAfter :=
      match outcome with
      | ServiceOutcome.success a =>
        applyRegenSuccess st.itinerary t.dayNum t.period t.idx a
      | ServiceOutcome.nullResult => st.itinerary
      | ServiceOutcome.thrown => st.itinerary
    ({ st with
        regenModalOpen := false
        itinerary := itinAfter
        regeneratingIds := removeKey key idsDuring
        regenTarget := none },
     some names)

/-- The synchronous prelude of confirmRegeneration, up to and including
the Set.add, before the await point. -/
def regenAccept (ids : List String) (key : String) : List String :=
  insertKey key ids

/-- handleDeleteActivity: synchronously remove the item at the slot,
shifting later indices in the same period. -/
def handleDeleteActivity (itin : Option Itinerary) (dayNum : Nat)
    (p : Period) (idx : Nat) : Option Itinerary :=
  match itin with
  | none => none
  | some it =>
    some { it with
      days := it.days.map (fun d =>
        if d.dayNumber = dayNum then
          d.setPeriodList p ((d.periodList p).eraseIdx idx)
        else d) }

/-! ## Restart affordance (ITINERARY header X button, src/App.tsx) -/

/-- Client state visible to the restart affordance. -/
structure ClientSnapshot where
  step : Step
  prefs : UserPreferences
  dayImages : List (Nat × String)
deriving DecidableEq

/-- The restart (X) button of the ITINERARY header: its onClick runs
exactly setStep(Step.START). -/
def restartClick (st : ClientSnapshot) : ClientSnapshot :=
  { st with step := Step.START }

/-! ## Entry state of the Questions step -/

/-- State on entry to the Questions step: handleSpecificsSubmit stores
the received questions, resets the index to 0, and the follow-up map of
the initial draft is empty. -/
def initialQuestionsState (qs : List SmartQuestion) : QuestionsState :=
  { smartQuestions := qs
    currentQuestionIndex := 0
    dragStart := none
    dragDelta := (0, 0)
    isAnimatingOut := false
    followUpAnswers := []
    step := Step.QUESTIONS }

/-! ## Concrete instances used by witnesses and counterexamples -/

def mkDay (n : Nat) : DayPlan :=
  { dayNumber := n
    date := ""
    title := "A day"
    areaFocus := "Center"
    vibe := "Both"
    vibeIcons := []
    morning := []
    afternoon := []
    evening := [] }

def exActivity : Activity :=
  { name := "City Museum"
    description := "A museum."
    emoji := "M"
    category := "Culture"
    mapsQuery := "City Museum" }

def exActivityAlt : Activity :=
  { name := "River Walk"
    description := "A walk."
    emoji := "R"
    category := "Nature"
    mapsQuery := "River Walk" }

def exDay1 : DayPlan :=
  { mkDay 1 with morning := [exActivity, exActivityAlt], evening := [exActivity] }

def exDay2 : DayPlan :=
  { mkDay 2 with morning := [exActivityAlt] }

def exDays : List DayPlan := [exDay1, exDay2]

def exStored5 : StoredItinerary :=
  { id := "abc"
    unlocked := false
    plan := { destination := "Tokyo, Japan"
              days := [mkDay 1, mkDay 2, mkDay 3, mkDay 4, mkDay 5] }
    images := [] }

def exDb : List StoredItinerary := [exStored5]

def exSessionPaid : CheckoutSession :=
  { payment_status := "paid", client_reference_id := some "abc" }

def exTarget : RegenTarget :=
  { dayNum := 2
    period := Period.morning
    idx := 0
    activity := exActivity
    dayTitle := "A day"
    areaFocus := "Center" }

def exRegenState : RegenControllerState :=
  { itinerary := some { destination := "Tokyo, Japan", days := exDays }
    regeneratingIds := ["2-morning-0"]
    regenTarget := some exTarget
    regenModalOpen := true }

def exSnapshot : ClientSnapshot :=
  { step := Step.ITINERARY
    prefs := { initialPrefs with destination := "Tokyo, Japan" }
    dayImages := [(1, "img1")] }

def exQs : List SmartQuestion :=
  [{ id := "q1", emoji := "J", title := "Jazz night?", description := "A jazz bar." },
   { id := "q2", emoji := "S", title := "Street food?", description := "A food market." }]

def exDs : List Bool := [true, false]

def exQState (dx : Int) : QuestionsState :=
  { smartQuestions := exQs
    currentQuestionIndex := 0
    dragStart := some (0, 0)
    dragDelta := (dx, 0)
    isAnimatingOut := false
    followUpAnswers := []
    step := Step.QUESTIONS }

def emptyCache : ImageCache := fun _ => none

def exMerges : List (Nat × String) := [(1, "imgA"), (2, "imgB"), (3, "imgC")]

def exMergesPermuted : List (Nat × String) := [(3, "imgC"), (1, "imgA"), (2, "imgB")]

/-! ## Lemmas about the follow-up answers map -/

theorem setAnswer_of_forall_ne (m : List (String × Bool)) (qid : String) (b : Bool)
    (h : ∀ e ∈ m, (e.1 == qid) = false) :
    setAnswer m qid b = m ++ [(qid, b)] := by
  unfold setAnswer
  rw [if_neg]
  intro hc
  obtain ⟨e, he, hbe⟩ := List.any_eq_true.mp hc
  rw [h e he] at hbe
  exact Bool.false_ne_true hbe

theorem find?_map_overwrite (m : List (String × Bool)) (qid : String) (b : Bool)
    (h : m.any (fun p => p.1 == qid) = true) :
    (m.map (fun p => if p.1 == qid then (qid, b) else p)).find? (fun p => p.1 == qid)
      = some (qid, b) := by
  induction m with
  | nil => simp at h
  | cons p rest ih =>
    rw [List.map_cons]
    by_cases hp : (p.1 == qid) = true
    · rw [if_pos hp, List.find?_cons_of_pos _ (by simp)]
    · rw [if_neg (by simpa using hp), List.find?_cons_of_neg _ (by simpa using hp)]
      apply ih
      obtain ⟨x, hx, hpx⟩ := List.any_eq_true.mp h
      rcases List.mem_cons.mp hx with rfl | hx
      · exact absurd hpx (by simpa using hp)
      · exact List.any_eq_true.mpr ⟨x, hx, hpx⟩

theorem getAnswer_setAnswer_self (m : List (String × Bool)) (qid : String) (b : Bool) :
    getAnswer (setAnswer m qid b) qid = some b := by
  unfold setAnswer getAnswer
  by_cases h : m.any (fun p => p.1 == qid) = true
  · rw [if_pos h, find?_map_overwrite m qid b h]
    rfl
  · rw [if_neg h, List.find?_append]
    have hm : m.find? (fun p => p.1 == qid) = none := by
      rw [List.find?_eq_none]
      intro e he hbe
      exact h (List.any_eq_true.mpr ⟨e, he, hbe⟩)
    rw [hm, List.find?_cons_of_pos _ (by simp)]
    rfl

theorem foldl_setAnswer_disjoint (zs : List (SmartQuestion × Bool)) :
    ∀ m : List (String × Bool),
      (zs.map (fun p => p.1.id)).Nodup →
      (∀ p ∈ zs, ∀ e ∈ m, (e.1 == p.1.id) = false) →
      zs.foldl (fun m p => setAnswer m p.1.id p.2) m
        = m ++ zs.map (fun p => (p.1.id, p.2)) := by
  induction zs with
  | nil => intro m _ _; simp
  | cons z rest ih =>
    intro m hn hdisj
    have hhead : setAnswer m z.1.id z.2 = m ++ [(z.1.id, z.2)] :=
      setAnswer_of_forall_ne m z.1.id z.2
        (fun e he => hdisj z (List.mem_cons_self z rest) e he)
    have hn2 : (rest.map (fun p => p.1.id)).Nodup :=
      (List.nodup_cons.mp (by simpa using hn)).2
    have hnin : z.1.id ∉ rest.map (fun p => p.1.id) :=
      (List.nodup_cons.mp (by simpa using hn)).1
    have hdisj2 : ∀ p ∈ rest, ∀ e ∈ m ++ [(z.1.id, z.2)], (e.1 == p.1.id) = false := by
      intro p hp e he
      rcases List.mem_append.mp he with he | he
      · exact hdisj p (List.mem_cons_of_mem z hp) e he
      · have : e = (z.1.id, z.2) := by simpa using he
        subst this
        refine beq_eq_false_iff_ne.mpr ?_
        intro hcontra
        apply hnin
        have : z.1.id = p.1.id := hcontra
        rw [this]
        exact List.mem_map_of_mem (fun p => p.1.id) hp
    show rest.foldl _ (setAnswer m z.1.id z.2) = _
    rw [hhead, ih (m ++ [(z.1.id, z.2)]) hn2 hdisj2]
    simp

/-! ## Lemmas about a single swipe step -/

theorem handleSwipeComplete_last (st : QuestionsState) (d : Bool) (q : SmartQuestion)
    (han : st.isAnimatingOut = false)
    (hq : st.smartQuestions[st.currentQuestionIndex]? = some q)
    (hlast : st.smartQuestions.length ≤ st.currentQuestionIndex + 1) :
    handleSwipeComplete st d
      = { st with
            followUpAnswers := setAnswer st.followUpAnswers q.id d
            dragDelta := (0, 0)
            isAnimatingOut := false
            step := Step.LOADING } := by
  unfold handleSwipeComplete
  rw [han, hq]
  simp [hlast]

theorem handleSwipeComplete_mid (st : QuestionsState) (d : Bool) (q : SmartQuestion)
    (han : st.isAnimatingOut = false)
    (hq : st.smartQuestions[st.currentQuestionIndex]? = some q)
    (hmid : st.currentQuestionIndex + 1 < st.smartQuestions.length) :
    handleSwipeComplete st d
      = { st with
            followUpAnswers := setAnswer st.followUpAnswers q.id d
            dragDelta := (0, 0)
            isAnimatingOut := false
            currentQuestionIndex := st.currentQuestionIndex + 1 } := by
  unfold handleSwipeComplete
  rw [han, hq]
  simp [Nat.not_le.mpr hmid]

/-- C3: for every drag gesture released with horizontal delta dx against
the fixed threshold, dx strictly greater than the threshold commits
answer true, dx strictly less than minus the threshold commits answer
false, and otherwise (including dx equal to the threshold) the gesture
is cancelled, the delta accumulator resets to zero and no answer is
written; the boundary is exclusive. -/
theorem C3_swipe_boundary (st : QuestionsState) (s : Int × Int) (q : SmartQuestion)
    (hds : st.dragStart = some s) (han : st.isAnimatingOut = false)
    (hq : st.smartQuestions[st.currentQuestionIndex]? = some q) :
    (threshold < st.dragDelta.1 →
       getAnswer (onPointerUp st).followUpAnswers q.id = some true) ∧
    (st.dragDelta.1 < -threshold →
       getAnswer (onPointerUp st).followUpAnswers q.id = some false) ∧
    (-threshold ≤ st.dragDelta.1 → st.dragDelta.1 ≤ threshold →
       onPointerUp st = { st with dragDelta := (0, 0), dragStart := none }) := by
  have hnot : ¬ (st.dragStart.isNone ∨ st.isAnimatingOut) := by
    rw [hds, han]
    simp
  have hrun : ∀ dir : Bool,
      (handleSwipeComplete st dir).followUpAnswers
        = setAnswer st.followUpAnswers q.id dir := by
    intro dir
    by_cases hlast : st.smartQuestions.length ≤ st.currentQuestionIndex + 1
    · rw [handleSwipeComplete_last st dir q han hq hlast]
    · rw [handleSwipeComplete_mid st dir q han hq (Nat.not_le.mp hlast)]
  refine ⟨fun hgt => ?_, fun hlt => ?_, fun hge hle => ?_⟩
  · have heq : onPointerUp st = { handleSwipeComplete st true with dragStart := none } := by
      unfold onPointerUp
      rw [if_neg hnot, if_pos hgt]
    rw [heq]
    show getAnswer (handleSwipeComplete st true).followUpAnswers q.id = some true
    rw [hrun true]
    exact getAnswer_setAnswer_self st.followUpAnswers q.id true
  · have hlt2 : st.dragDelta.1 < threshold := lt_trans hlt (by decide)
    have heq : onPointerUp st = { handleSwipeComplete st false with dragStart := none } := by
      unfold onPointerUp
      rw [if_neg hnot, if_neg (not_lt.mpr (le_of_lt hlt2)), if_pos hlt]
    rw [heq]
    show getAnswer (handleSwipeComplete st false).followUpAnswers q.id = some false
    rw [hrun false]
    exact getAnswer_setAnswer_self st.followUpAnswers q.id false
  · unfold onPointerUp
    rw [if_neg hnot, if_neg (not_lt.mpr hle), if_neg (not_lt.mpr hge)]

/-- Witness for C3: at delta 101 = threshold + 1 the gesture commits
answer true for the active question, and at delta exactly 100 = the
threshold it cancels, resetting the delta with no answer written. -/
theorem C3_swipe_boundary_witness :
    (exQState 101).dragStart = some (0, 0) ∧
    (exQState 101).isAnimatingOut = false ∧
    (exQState 101).smartQuestions[(exQState 101).currentQuestionIndex]?
      = some { id := "q1", emoji := "J", title := "Jazz night?", description := "A jazz bar." } ∧
    getAnswer (onPointerUp (exQState 101)).followUpAnswers "q1" = some true ∧
    onPointerUp (exQState 100) = { exQState 100 with dragDelta := (0, 0), dragStart := none } :=
  ⟨rfl, rfl, rfl,
   (C3_swipe_boundary (exQState 101) (0, 0)
      { id := "q1", emoji := "J", title := "Jazz night?", description := "A jazz bar." }
      rfl rfl rfl).1 (by decide),
   (C3_swipe_boundary (exQState 100) (0, 0)
      { id := "q1", emoji := "J", title := "Jazz night?", description := "A jazz bar." }
      rfl rfl rfl).2.2 (by decide) (by decide)⟩

/-! ## The full Questions traversal -/

theorem runQuestions_spec (ds : List Bool) :
    ∀ st : QuestionsState,
      st.isAnimatingOut = false →
      st.currentQuestionIndex + ds.length = st.smartQuestions.length →
      (runQuestions st ds).followUpAnswers
          = ((st.smartQuestions.drop st.currentQuestionIndex).zip ds).foldl
              (fun m p => setAnswer m p.1.id p.2) st.followUpAnswers
        ∧ (ds ≠ [] → (runQuestions st ds).step = Step.LOADING) := by
  induction ds with
  | nil =>
    intro st _ _
    constructor
    · simp [runQuestions, List.zip_nil_right]
    · intro h
      exact absurd rfl h
  | cons d ds ih =>
    intro st han hlen
    have hlt : st.currentQuestionIndex < st.smartQuestions.length := by
      simp only [List.length_cons] at hlen
      omega
    have hq : st.smartQuestions[st.currentQuestionIndex]?
        = some st.smartQuestions[st.currentQuestionIndex] :=
      List.getElem?_eq_getElem hlt
    have hdrop : st.smartQuestions.drop st.currentQuestionIndex
        = st.smartQuestions[st.currentQuestionIndex]
            :: st.smartQuestions.drop (st.currentQuestionIndex + 1) :=
      List.drop_eq_getElem_cons hlt
    have hfold : runQuestions st (d :: ds) = runQuestions (handleSwipeComplete st d) ds := rfl
    by_cases hlast : st.smartQuestions.length ≤ st.currentQuestionIndex + 1
    · have hds : ds = [] := by
        cases ds with
        | nil => rfl
        | cons x xs =>
          simp only [List.length_cons] at hlen
          omega
      subst hds
      rw [hfold, handleSwipeComplete_last st d _ han hq hlast]
      refine ⟨?_, fun _ => rfl⟩
      rw [hdrop, List.zip_cons_cons, List.zip_nil_right]
      rfl
    · have hmid : st.currentQuestionIndex + 1 < st.smartQuestions.length :=
        Nat.not_le.mp hlast
      have hne : ds ≠ [] := by
        cases ds with
        | nil =>
          simp only [List.length_cons, List.length_nil] at hlen
          omega
        | cons x xs => simp
      rw [hfold, handleSwipeComplete_mid st d _ han hq hmid]
      have hspec := ih { st with
          followUpAnswers := setAnswer st.followUpAnswers
            st.smartQuestions[st.currentQuestionIndex].id d
          dragDelta := (0, 0)
          isAnimatingOut := false
          currentQuestionIndex := st.currentQuestionIndex + 1 }
        rfl (by simp only [List.length_cons] at hlen; simpa using (by omega :
              st.currentQuestionIndex + 1 + ds.length = st.smartQuestions.length))
      refine ⟨?_, fun _ => hspec.2 hne⟩
      rw [hspec.1]
      rw [hdrop]
      rfl

/-- C4: starting the Questions step on a received question sequence with
pairwise distinct ids and an empty follow-up map, answering every
question produces a follow-up-answers map holding exactly one boolean
entry per received question id, keyed in exactly the order received with
the decision made at that question, and completing the last question
moves the machine to Loading. -/
theorem C4_questions_complete (qs : List SmartQuestion) (ds : List Bool)
    (hn : (qs.map (fun q => q.id)).Nodup) (hl : ds.length = qs.length)
    (hne : qs ≠ []) :
    (runQuestions (initialQuestionsState qs) ds).followUpAnswers
        = (qs.zip ds).map (fun p => (p.1.id, p.2)) ∧
    (runQuestions (initialQuestionsState qs) ds).followUpAnswers.map Prod.fst
        = qs.map (fun q => q.id) ∧
    (runQuestions (initialQuestionsState qs) ds).step = Step.LOADING := by
  have hids : (qs.zip ds).map (fun p => p.1.id) = qs.map (fun q => q.id) := by
    have h1 : (qs.zip ds).map Prod.fst = qs := List.map_fst_zip qs ds (le_of_eq hl.symm)
    calc (qs.zip ds).map (fun p => p.1.id)
        = ((qs.zip ds).map Prod.fst).map (fun q => q.id) := by
          rw [List.map_map]
          rfl
      _ = qs.map (fun q => q.id) := by rw [h1]
  have hdsne : ds ≠ [] := by
    intro h
    subst h
    simp only [List.length_nil] at hl
    exact hne (List.eq_nil_of_length_eq_zero hl.symm)
  have hspec := runQuestions_spec ds (initialQuestionsState qs) rfl
    (by show 0 + ds.length = qs.length; omega)
  have hfold : ((qs.drop 0).zip ds).foldl (fun m p => setAnswer m p.1.id p.2) []
      = [] ++ (qs.zip ds).map (fun p => (p.1.id, p.2)) := by
    rw [List.drop_zero]
    exact foldl_setAnswer_disjoint (qs.zip ds) [] (hids ▸ hn) (by simp)
  have hans : (runQuestions (initialQuestionsState qs) ds).followUpAnswers
      = (qs.zip ds).map (fun p => (p.1.id, p.2)) := by
    rw [hspec.1]
    simpa using hfold
  refine ⟨hans, ?_, hspec.2 hdsne⟩
  rw [hans, List.map_map]
  exact hids

/-- Witness for C4: two questions answered yes then no produce the map
with exactly those two entries in received order and move to Loading. -/
theorem C4_questions_complete_witness :
    (exQs.map (fun q => q.id)).Nodup ∧ exDs.length = exQs.length ∧ exQs ≠ [] ∧
    (runQuestions (initialQuestionsState exQs) exDs).followUpAnswers
        = (exQs.zip exDs).map (fun p => (p.1.id, p.2)) ∧
    (runQuestions (initialQuestionsState exQs) exDs).step = Step.LOADING :=
  ⟨by decide, by decide, by decide,
   (C4_questions_complete exQs exDs (by decide) (by decide) (by decide)).1,
   (C4_questions_complete exQs exDs (by decide) (by decide) (by decide)).2.2⟩

/-! ## Preferences transition guard -/

/-- C7: the Preferences-to-Specifics transition is blocked exactly when
the type-specific demographic fields are incomplete (Solo needs gender
and age, Couple and Friends need age, Family needs kidsAgeRange); when
complete the machine advances to Specifics, otherwise it stays in
Preferences with a user-facing message. -/
theorem C7_preferences_guard (t : TripType) (d : Demographics) :
    ((handlePreferencesSubmit t d).1 = Step.SPECIFICS ↔ demographicsComplete t d) ∧
    ((handlePreferencesSubmit t d).1 = Step.SPECIFICS →
       (handlePreferencesSubmit t d).2 = none) ∧
    (¬ demographicsComplete t d →
       (handlePreferencesSubmit t d).1 = Step.PREFERENCES ∧
       ∃ msg, (handlePreferencesSubmit t d).2 = some msg) := by
  cases t <;>
    · unfold handlePreferencesSubmit demographicsComplete
      by_cases hg : d.gender = "" <;> by_cases ha : d.age = "" <;>
        by_cases hk : d.kidsAgeRange = "" <;> simp_all

/-- Witness for C7: complete Solo demographics advance to Specifics,
incomplete Family demographics stay in Preferences. -/
theorem C7_preferences_guard_witness :
    demographicsComplete TripType.Solo { gender := "Male", age := "30", kidsAgeRange := "" } ∧
    (handlePreferencesSubmit TripType.Solo
        { gender := "Male", age := "30", kidsAgeRange := "" }).1 = Step.SPECIFICS ∧
    ¬ demographicsComplete TripType.Family { gender := "", age := "", kidsAgeRange := "" } ∧
    (handlePreferencesSubmit TripType.Family
        { gender := "", age := "", kidsAgeRange := "" }).1 = Step.PREFERENCES :=
  ⟨by show "Male" ≠ "" ∧ "30" ≠ ""; decide,
   (C7_preferences_guard TripType.Solo
       { gender := "Male", age := "30", kidsAgeRange := "" }).1.mpr
     (by show "Male" ≠ "" ∧ "30" ≠ ""; decide),
   by show ¬ ("" : String) ≠ ""; decide,
   ((C7_preferences_guard TripType.Family
       { gender := "", age := "", kidsAgeRange := "" }).2.2
     (by show ¬ ("" : String) ≠ ""; decide)).1⟩

/-! ## Image cache merge algebra -/

theorem mergeImage_idem (k : Nat) (v : String) (c : ImageCache) :
    mergeImage k v (mergeImage k v c) = mergeImage k v c := by
  funext n
  unfold mergeImage
  by_cases h : n = k <;> simp [h]

theorem mergeImage_comm (k1 k2 : Nat) (v1 v2 : String) (c : ImageCache)
    (h : k1 ≠ k2) :
    mergeImage k1 v1 (mergeImage k2 v2 c) = mergeImage k2 v2 (mergeImage k1 v1 c) := by
  funext n
  unfold mergeImage
  by_cases h1 : n = k1
  · subst h1
    rw [if_pos rfl, if_neg h, if_pos rfl]
  · by_cases h2 : n = k2
    · subst h2
      rw [if_neg h1, if_pos rfl, if_pos rfl]
    · rw [if_neg h1, if_neg h2, if_neg h2, if_neg h1]

theorem mergeAll_perm : ∀ {ps qs : List (Nat × String)}, ps.Perm qs →
    (ps.map Prod.fst).Nodup → ∀ c : ImageCache, mergeAll ps c = mergeAll qs c := by
  intro ps qs hperm
  induction hperm with
  | nil =>
    intro _ _
    rfl
  | cons x p ih =>
    intro hn c
    rw [List.map_cons] at hn
    exact ih (List.nodup_cons.mp hn).2 (mergeImage x.1 x.2 c)
  | swap x y l =>
    intro hn c
    rw [List.map_cons, List.map_cons] at hn
    have hni : y.1 ∉ x.1 :: l.map Prod.fst := (List.nodup_cons.mp hn).1
    have hxy : x.1 ≠ y.1 := by
      intro h
      apply hni
      rw [h]
      exact List.mem_cons_self y.1 (l.map Prod.fst)
    show mergeAll l (mergeImage x.1 x.2 (mergeImage y.1 y.2 c))
        = mergeAll l (mergeImage y.1 y.2 (mergeImage x.1 x.2 c))
    rw [mergeImage_comm x.1 y.1 x.2 y.2 c hxy]
  | trans p1 p2 ih1 ih2 =>
    intro hn c
    exact (ih1 hn c).trans (ih2 ((p1.map Prod.fst).nodup hn) c)

/-- C8: the per-day image cache merge is commutative across distinct day
keys and idempotent per key: hydrating any set of days with distinct day
numbers in any completion order yields the same final cache, and
repeating a merge for the same day with the same image changes
nothing. -/
theorem C8_image_merge_commutes :
    (∀ (ps qs : List (Nat × String)) (c : ImageCache),
        ps.Perm qs → (ps.map Prod.fst).Nodup → mergeAll ps c = mergeAll qs c) ∧
    (∀ (k : Nat) (v : String) (c : ImageCache),
        mergeImage k v (mergeImage k v c) = mergeImage k v c) :=
  ⟨fun _ _ c hp hn => mergeAll_perm hp hn c, mergeImage_idem⟩

/-- Witness for C8: hydrating days 1, 2, 3 in a permuted completion
order yields the same final cache, and repeating the merge for day 1
changes nothing. -/
theorem C8_image_merge_commutes_witness :
    exMerges.Perm exMergesPermuted ∧ (exMerges.map Prod.fst).Nodup ∧
    mergeAll exMerges emptyCache = mergeAll exMergesPermuted emptyCache ∧
    mergeImage 1 "imgA" (mergeImage 1 "imgA" emptyCache)
      = mergeImage 1 "imgA" emptyCache :=
  ⟨by decide, by decide,
   C8_image_merge_commutes.1 exMerges exMergesPermuted emptyCache (by decide) (by decide),
   C8_image_merge_commutes.2 1 "imgA" emptyCache⟩

/-! ## Restart affordance -/

/-- Counterexample to C9: the restart (X) button of the Itinerary header
runs only setStep(Step.START); from a state with a non-empty draft and a
cached day image, the draft is not reset to the initial empty draft and
the image cache is not emptied. -/
theorem C9_restart_counterexample :
    (restartClick exSnapshot).step = Step.START ∧
    ¬ ((restartClick exSnapshot).prefs = initialPrefs ∧
       (restartClick exSnapshot).dayImages = []) := by
  exact ⟨rfl, by decide⟩

/-- C9 amended: invoking the restart affordance from the Itinerary step
resets the machine to Start but preserves the preference draft and the
cached day images unchanged. -/
theorem C9_restart_resets_step_only (st : ClientSnapshot) :
    (restartClick st).step = Step.START ∧
    (restartClick st).prefs = st.prefs ∧
    (restartClick st).dayImages = st.dayImages :=
  ⟨rfl, rfl, rfl⟩

/-! ## Paywall masking and lock accounting -/

/-- C1: for a locked session resource the GET endpoint returns a plan
masked to at most min(2, totalDays) days while totalDays reports the
full stored count; the itinerary view then displays exactly
min(2, totalDays) days, lockedDaysCount equals totalDays minus the
displayed count, and the unlock affordance renders exactly when
lockedDaysCount is positive. -/
theorem C1_locked_masking (st : StoredItinerary) (h : st.unlocked = false) :
    (getItineraryEndpoint st).plan.days.length
        ≤ min 2 (getItineraryEndpoint st).totalDays ∧
    (displayDays (getItineraryEndpoint st).unlocked
        (getItineraryEndpoint st).plan.days).length
        = min 2 (getItineraryEndpoint st).totalDays ∧
    lockedDaysCount (getItineraryEndpoint st).totalDays
        (displayDays (getItineraryEndpoint st).unlocked
          (getItineraryEndpoint st).plan.days).length
        = ((getItineraryEndpoint st).totalDays : Int)
            - ((min 2 (getItineraryEndpoint st).totalDays : Nat) : Int) ∧
    (showUnlockAffordance (getItineraryEndpoint st).unlocked
        (lockedDaysCount (getItineraryEndpoint st).totalDays
          (displayDays (getItineraryEndpoint st).unlocked
            (getItineraryEndpoint st).plan.days).length) = true
      ↔ 0 < lockedDaysCount (getItineraryEndpoint st).totalDays
          (displayDays (getItineraryEndpoint st).unlocked
            (getItineraryEndpoint st).plan.days).length) := by
  unfold getItineraryEndpoint maskPlan displayDays lockedDaysCount showUnlockAffordance
  rw [h]
  simp [List.take_take]

/-- Witness for C1: a locked five-day stored itinerary is served masked
to two days, displays two days, reports lockedDaysCount three, and
renders the unlock affordance. -/
theorem C1_locked_masking_witness :
    exStored5.unlocked = false ∧
    ((getItineraryEndpoint exStored5).plan.days.length
        ≤ min 2 (getItineraryEndpoint exStored5).totalDays ∧
     (displayDays (getItineraryEndpoint exStored5).unlocked
        (getItineraryEndpoint exStored5).plan.days).length
        = min 2 (getItineraryEndpoint exStored5).totalDays ∧
     lockedDaysCount (getItineraryEndpoint exStored5).totalDays
        (displayDays (getItineraryEndpoint exStored5).unlocked
          (getItineraryEndpoint exStored5).plan.days).length
        = ((getItineraryEndpoint exStored5).totalDays : Int)
            - ((min 2 (getItineraryEndpoint exStored5).totalDays : Nat) : Int) ∧
     (showUnlockAffordance (getItineraryEndpoint exStored5).unlocked
        (lockedDaysCount (getItineraryEndpoint exStored5).totalDays
          (displayDays (getItineraryEndpoint exStored5).unlocked
            (getItineraryEndpoint exStored5).plan.days).length) = true
       ↔ 0 < lockedDaysCount (getItineraryEndpoint exStored5).totalDays
          (displayDays (getItineraryEndpoint exStored5).unlocked
            (getItineraryEndpoint exStored5).plan.days).length)) ∧
    lockedDaysCount (getItineraryEndpoint exStored5).totalDays
        (displayDays (getItineraryEndpoint exStored5).unlocked
          (getItineraryEndpoint exStored5).plan.days).length = 3 ∧
    showUnlockAffordance (getItineraryEndpoint exStored5).unlocked
        (lockedDaysCount (getItineraryEndpoint exStored5).totalDays
          (displayDays (getItineraryEndpoint exStored5).unlocked
            (getItineraryEndpoint exStored5).plan.days).length) = true :=
  ⟨rfl, C1_locked_masking exStored5 rfl, by decide, by decide⟩

/-! ## Payment verification -/

theorem unlockFirst_length (db : List StoredItinerary) (iid : String) :
    (unlockFirst db iid).length = db.length := by
  induction db with
  | nil => rfl
  | cons it rest ih =>
    unfold unlockFirst
    by_cases h : it.id = iid <;> simp [h, ih]

theorem unlockFirst_getElem? (db : List StoredItinerary) (iid : String) (j : Nat) :
    (unlockFirst db iid)[j]? = db[j]? ∨
    ((db[j]?).map StoredItinerary.id = some iid ∧
     (unlockFirst db iid)[j]?
       = (db[j]?).map (fun it => { it with unlocked := true })) := by
  induction db generalizing j with
  | nil =>
    left
    rfl
  | cons it rest ih =>
    unfold unlockFirst
    by_cases h : it.id = iid
    · rw [if_pos h]
      cases j with
      | zero =>
        right
        exact ⟨by simp [h], by simp⟩
      | succ j =>
        left
        simp
    · rw [if_neg h]
      cases j with
      | zero =>
        left
        simp
      | succ j =>
        simpa using ih j

/-- C10: the verify-payment endpoint reports success exactly when the
retrieved checkout session is paid and its client reference id equals
the requested itinerary id; on any failure the stored documents are
untouched, and any unlocked flag that changes belongs to the requested
id, changes to true, and only under a success response. -/
theorem C10_verify_payment (db : List StoredItinerary)
    (retrieved : Option CheckoutSession) (iid : String) :
    ((verifyPaymentEndpoint db retrieved iid).1 = VerifyResponse.success ↔
       ∃ s, retrieved = some s ∧ s.payment_status = "paid" ∧
            s.client_reference_id = some iid) ∧
    ((verifyPaymentEndpoint db retrieved iid).1 ≠ VerifyResponse.success →
       (verifyPaymentEndpoint db retrieved iid).2 = db) ∧
    (∀ j : Nat,
       ((verifyPaymentEndpoint db retrieved iid).2[j]?).map StoredItinerary.unlocked
           ≠ (db[j]?).map StoredItinerary.unlocked →
       (verifyPaymentEndpoint db retrieved iid).1 = VerifyResponse.success ∧
       (db[j]?).map StoredItinerary.id = some iid ∧
       ((verifyPaymentEndpoint db retrieved iid).2[j]?).map StoredItinerary.unlocked
           = some true) := by
  unfold verifyPaymentEndpoint
  cases retrieved with
  | none =>
    refine ⟨⟨fun hc => absurd hc (by simp), ?_⟩, fun _ => rfl, fun j hj => absurd rfl hj⟩
    rintro ⟨s, hs, -, -⟩
    exact Option.noConfusion hs
  | some s =>
    dsimp only
    by_cases hc : s.payment_status = "paid" ∧ s.client_reference_id = some iid
    · rw [if_pos hc]
      refine ⟨⟨fun _ => ⟨s, rfl, hc.1, hc.2⟩, fun _ => rfl⟩, fun hne => absurd rfl hne, ?_⟩
      intro j hj
      rcases unlockFirst_getElem? db iid j with heq | ⟨hid, heq⟩
      · rw [heq] at hj
        exact absurd rfl hj
      · refine ⟨rfl, hid, ?_⟩
        rw [heq]
        cases hdb : db[j]? with
        | none =>
          rw [hdb] at hid
          exact Option.noConfusion hid
        | some it => rfl
    · rw [if_neg hc]
      refine ⟨⟨fun h => absurd h (by simp), ?_⟩, fun _ => rfl, fun j hj => absurd rfl hj⟩
      rintro ⟨s', hs', h1, h2⟩
      rw [Option.some_inj] at hs'
      subst hs'
      exact absurd ⟨h1, h2⟩ hc

/-- Witness for C10: a paid session with matching reference verifies
successfully; a failed retrieval reports failure and leaves the
database unchanged. -/
theorem C10_verify_payment_witness :
    (verifyPaymentEndpoint exDb (some exSessionPaid) "abc").1 = VerifyResponse.success ∧
    (verifyPaymentEndpoint exDb none "abc").1 ≠ VerifyResponse.success ∧
    (verifyPaymentEndpoint exDb none "abc").2 = exDb :=
  ⟨(C10_verify_payment exDb (some exSessionPaid) "abc").1.mpr
     ⟨exSessionPaid, rfl, rfl, rfl⟩,
   by decide,
   (C10_verify_payment exDb none "abc").2.1 (by decide)⟩

/-! ## Slot regeneration controller -/

/-- Counterexample to C2: with the slot key (2, morning, 0) already in
the in-flight set and the modal confirmed for that same slot,
confirmRegeneration still reaches the alternative-activity capability
(the exclusion list is passed) instead of returning without a service
call. -/
theorem C2_duplicate_counterexample :
    slotKey 2 Period.morning 0 ∈ exRegenState.regeneratingIds ∧
    (confirmRegeneration exRegenState ServiceOutcome.nullResult).2 ≠ none := by
  constructor
  · decide
  · decide

/-- C2 amended: a new regeneration request for a slot key already in the
in-flight set leaves the in-flight set unchanged in size (adding a
present key to the set is a no-op), but the request is not rejected: the
alternative-activity capability is still called, with the gathered
exclusion list. -/
theorem C2_duplicate_not_rejected (st : RegenControllerState) (t : RegenTarget)
    (o : ServiceOutcome) (ht : st.regenTarget = some t)
    (hin : slotKey t.dayNum t.period t.idx ∈ st.regeneratingIds) :
    (regenAccept st.regeneratingIds (slotKey t.dayNum t.period t.idx)).length
        = st.regeneratingIds.length ∧
    (confirmRegeneration st o).2 = some (gatherExistingNames st.itinerary) := by
  constructor
  · have hc : st.regeneratingIds.contains (slotKey t.dayNum t.period t.idx) = true := by
      simpa using hin
    unfold regenAccept insertKey
    rw [if_pos hc]
  · unfold confirmRegeneration
    rw [ht]

/-- Witness for C2 amended: the concrete duplicate request keeps the
set size at one and still calls the service. -/
theorem C2_duplicate_not_rejected_witness :
    exRegenState.regenTarget = some exTarget ∧
    slotKey exTarget.dayNum exTarget.period exTarget.idx
        ∈ exRegenState.regeneratingIds ∧
    ((regenAccept exRegenState.regeneratingIds
        (slotKey exTarget.dayNum exTarget.period exTarget.idx)).length
          = exRegenState.regeneratingIds.length ∧
      (confirmRegeneration exRegenState ServiceOutcome.thrown).2
          = some (gatherExistingNames exRegenState.itinerary)) :=
  ⟨rfl, by decide,
   C2_duplicate_not_rejected exRegenState exTarget ServiceOutcome.thrown rfl (by decide)⟩

/-- C6: for every accepted regeneration request the slot key added at
acceptance is absent from the in-flight set at completion, on every
outcome path: service success, null result, thrown error, and hence
also a dropped (inapplicable) write. -/
theorem C6_inflight_removed (st : RegenControllerState) (t : RegenTarget)
    (ht : st.regenTarget = some t) (o : ServiceOutcome) :
    slotKey t.dayNum t.period t.idx
        ∉ (confirmRegeneration st o).1.regeneratingIds := by
  unfold confirmRegeneration
  rw [ht]
  intro hmem
  unfold removeKey at hmem
  rw [List.mem_filter] at hmem
  have hfalse := hmem.2
  simp at hfalse

/-- Witness for C6: on the concrete state the key is gone after a
successful completion. -/
theorem C6_inflight_removed_witness :
    exRegenState.regenTarget = some exTarget ∧
    slotKey exTarget.dayNum exTarget.period exTarget.idx
        ∉ (confirmRegeneration exRegenState
              (ServiceOutcome.success exActivityAlt)).1.regeneratingIds :=
  ⟨rfl, C6_inflight_removed exRegenState exTarget rfl (ServiceOutcome.success exActivityAlt)⟩

/-! ## Frame property of the regeneration write -/

theorem periodList_setPeriodList_self (d : DayPlan) (p : Period) (l : List Activity) :
    (d.setPeriodList p l).periodList p = l := by
  cases p <;> rfl

theorem periodList_setPeriodList_ne (d : DayPlan) (p q : Period) (l : List Activity)
    (h : q ≠ p) : (d.setPeriodList p l).periodList q = d.periodList q := by
  cases p <;> cases q <;> first | rfl | exact absurd rfl h

theorem dayNumber_setPeriodList (d : DayPlan) (p : Period) (l : List Activity) :
    (d.setPeriodList p l).dayNumber = d.dayNumber := by
  cases p <;> rfl

theorem setPeriodList_periodList (d : DayPlan) (p : Period) :
    d.setPeriodList p (d.periodList p) = d := by
  cases p <;> rfl

/-- C5: a successful regeneration write replaces exactly the addressed
list position: every day with another day number, every other period of
the addressed day, every other index of the addressed list, and that
list's length are unchanged; when no day carries the addressed day
number, or the index is out of range of the (possibly shortened) list,
the write is dropped and the day list is unchanged. -/
theorem C5_regen_replace_frame (days : List DayPlan) (dayNum : Nat) (p : Period)
    (idx : Nat) (a : Activity) :
    (replaceInDays days dayNum p idx a).length = days.length ∧
    (∀ j : Nat, ∀ d, days[j]? = some d → d.dayNumber ≠ dayNum →
        (replaceInDays days dayNum p idx a)[j]? = some d) ∧
    (∀ j : Nat, ∀ d, days[j]? = some d → d.dayNumber = dayNum →
        ∃ e, (replaceInDays days dayNum p idx a)[j]? = some e ∧
          e.dayNumber = d.dayNumber ∧
          (∀ q, q ≠ p → e.periodList q = d.periodList q) ∧
          (e.periodList p).length = (d.periodList p).length ∧
          (∀ k, k ≠ idx → (e.periodList p)[k]? = (d.periodList p)[k]?) ∧
          (idx < (d.periodList p).length → (e.periodList p)[idx]? = some a) ∧
          ((d.periodList p).length ≤ idx → e = d)) ∧
    ((∀ d ∈ days, d.dayNumber = dayNum → (d.periodList p).length ≤ idx) →
        replaceInDays days dayNum p idx a = days) := by
  refine ⟨?_, ?_, ?_, ?_⟩
  · exact List.length_map days _
  · intro j d hj hne
    unfold replaceInDays
    rw [List.getElem?_map, hj]
    simp [hne]
  · intro j d hj heq
    unfold replaceInDays
    rw [List.getElem?_map, hj]
    refine ⟨d.setPeriodList p ((d.periodList p).set idx a), by simp [heq],
      dayNumber_setPeriodList d p _,
      fun q hq => periodList_setPeriodList_ne d p q _ hq, ?_, ?_, ?_, ?_⟩
    · rw [periodList_setPeriodList_self]
      exact List.length_set ..
    · intro k hk
      rw [periodList_setPeriodList_self]
      exact List.getElem?_set_ne (Ne.symm hk)
    · intro hlt
      rw [periodList_setPeriodList_self]
      exact List.getElem?_set_self hlt
    · intro hge
      rw [List.set_eq_of_length_le hge, setPeriodList_periodList]
  · intro hall
    unfold replaceInDays
    have hid : ∀ d ∈ days,
        (if d.dayNumber = dayNum
          then d.setPeriodList p ((d.periodList p).set idx a) else d) = id d := by
      intro d hd
      by_cases hdn : d.dayNumber = dayNum
      · rw [if_pos hdn, List.set_eq_of_length_le (hall d hd hdn),
            setPeriodList_periodList]
        rfl
      · rw [if_neg hdn]
        rfl
    rw [List.map_congr_left hid, List.map_id]

/-- Witness for C5: on a concrete two-day itinerary, replacing morning
index 0 of day 1 preserves the length and leaves day 2 untouched, and a
write whose index is out of range of the addressed list is dropped. -/
theorem C5_regen_replace_frame_witness :
    (replaceInDays exDays 1 Period.morning 0 exActivityAlt).length = exDays.length ∧
    (exDays[1]? = some exDay2 ∧ exDay2.dayNumber ≠ 1 ∧
     (replaceInDays exDays 1 Period.morning 0 exActivityAlt)[1]? = some exDay2) ∧
    ((∀ d ∈ exDays, d.dayNumber = 1 → (d.periodList Period.evening).length ≤ 5) ∧
     replaceInDays exDays 1 Period.evening 5 exActivityAlt = exDays) :=
  ⟨(C5_regen_replace_frame exDays 1 Period.morning 0 exActivityAlt).1,
   ⟨rfl, by decide,
    (C5_regen_replace_frame exDays 1 Period.morning 0 exActivityAlt).2.1 1 exDay2
      rfl (by decide)⟩,
   ⟨by decide,
    (C5_regen_replace_frame exDays 1 Period.evening 5 exActivityAlt).2.2.2 (by decide)⟩⟩

end TripDaddy
